import Mathlib

set_option maxHeartbeats 1000000

/- Verification development for servermanager server_process.go: the
   AssettoServerProcess supervisor, its bounded log buffer, the UDP relay
   lifecycle, auxiliary child process handling and the teardown routine.
   Pure Go functions become Lean functions; the effects of external
   collaborators (the Store, the udp package, the OS) are passed in
   explicitly as oracle values, and the serialized control loop becomes a
   step function on an explicit supervisor state. -/

/-- Go error values are modelled as tags; the two sentinel errors declared in
server_process.go get their own constructors, every other error carries a
numeric code identifying the failing collaborator call. -/
inductive GoError
  | errServerProcessTimeout
  | errNoOpenUDPConnection
  | addrParseError
  | portParseError
  | udpOpenError (code : Nat)
  | getwdError (code : Nat)
  | optionsLoadError (code : Nat)
  | strackerLoadError (code : Nat)
  | strackerWriteError (code : Nat)
  | spawnError (code : Nat)
  | closeError (code : Nat)
  deriving DecidableEq

/-- Constant MaxLogSizeBytes from line 21 of server_process.go. -/
def MaxLogSizeBytes : Nat := 1000000

/-- The logBuffer type, lines 471-477: a byte buffer (bytes are Nat here)
plus the configured soft cap. The mutex only serializes access and has no
sequential meaning. -/
structure logBuffer where
  buf : List Nat
  size : Nat
  deriving DecidableEq

/-- newLogBuffer, lines 464-469. -/
def newLogBuffer (maxSize : Nat) : logBuffer :=
  { buf := [], size := maxSize }

/-- logBuffer.Write, lines 479-490: if the current content length strictly
exceeds the cap, the buffer is replaced by its trailing cap-sized slice,
then the incoming bytes are appended in full (bytes.Buffer.Write never
fails and never drops bytes). The Go return value (len p, nil) carries no
information, so only the updated buffer is returned. -/
def logBuffer.Write (lb : logBuffer) (p : List Nat) : logBuffer :=
  let b := lb.buf
  let b1 := if lb.size < b.length then b.drop (b.length - lb.size) else b
  { lb with buf := b1 ++ p }

/-- logBuffer.String, lines 492-497: snapshot of the current contents. -/
def logBuffer.String (lb : logBuffer) : List Nat :=
  lb.buf

/-- Folds a sequence of Write calls over a buffer, oldest first. -/
def logBuffer.WriteAll (lb : logBuffer) : List (List Nat) → logBuffer
  | [] => lb
  | p :: ps => (lb.Write p).WriteAll ps

/-- ServerOptions fields read by startRaceEvent (lines 222 and 233-235). -/
structure ServerOptions where
  enableContentManagerWrapper : Int
  contentManagerWrapperPort : Int
  udpPluginLocalPort : Int
  udpPluginAddress : String
  deriving DecidableEq

/-- StrackerOptions fields read by startRaceEvent (lines 232-255); the
ACPlugin port fields are only written and then persisted through the Write
collaborator, whose outcome is an oracle in StartEnv. -/
structure StrackerOptions where
  enableStracker : Bool
  listeningPort : Int
  deriving DecidableEq

/-- Outcomes of every external collaborator call made during one pass of
startRaceEvent, in source order. splitHostPort and parsePort are the
results of net.SplitHostPort and strconv.ParseInt on the stored plugin
address (Go standard library, outside this repository); udpOpen is
udp.NewServerClient; getwd is os.Getwd; loadServerOptions and
loadStrackerOptions are the Store calls; strackerInstalled is
IsStrackerInstalled; strackerWrite is strackerOptions.Write;
strackerStart is the startPlugin call for the sTracker executable;
configPlugins and runOnStartCmds list the per-entry outcomes of
startPlugin and startChildProcess for the configured plugin descriptors
and the deprecated command strings (none means the spawn succeeded);
wrapperStart is the outcome of the content manager wrapper goroutine,
which is only ever logged (lines 222-230) and therefore read by nothing. -/
structure StartEnv where
  splitHostPort : Option (String × String)
  parsePort : Option Int
  udpOpen : Except GoError Nat
  getwd : Except GoError String
  loadServerOptions : Except GoError ServerOptions
  loadStrackerOptions : Except GoError StrackerOptions
  strackerInstalled : Bool
  strackerWrite : Option GoError
  strackerStart : Option GoError
  configPlugins : List (Option GoError)
  runOnStartCmds : List (Option GoError)
  wrapperStart : Option GoError

/-- The four UDP addressing arguments of Start (line 88). -/
structure Addressing where
  udpPluginAddress : String
  udpPluginLocalPort : Int
  forwardingAddress : String
  forwardListenPort : Int
  deriving DecidableEq

/-- The AssettoServerProcess supervisor state, lines 36-62. Channels and
the context carry no sequential state; cfn and cmd are modelled by
presence flags (cfnSet, cmdSet) because only nil-ness of those fields is
ever observable. udpServerConn holds the connection identifier currently
stored in the field (none models a nil pointer); connOpen records whether
Close has not yet been invoked on that stored connection. spawnCount
counts how many times the main OS process was handed to cmd.Run (line
213), killAttemptsOnCmd counts forced-kill attempts on the main process
(line 123), childKillAttempts counts kill calls on tracked child
processes (line 423), extraProcesses is the size of the tracked child
process collection, and notifyDoneSignals holds, per registered
done-waiter in registration order, how many non-blocking signal attempts
it has received (line 297-302). -/
structure AssettoServerProcess where
  raceEvent : Option Nat
  cfnSet : Bool
  cmdSet : Bool
  spawnCount : Nat
  killAttemptsOnCmd : Nat
  udpServerConn : Option Nat
  connOpen : Bool
  udpPluginAddress : String
  udpPluginLocalPort : Int
  forwardingAddress : String
  forwardListenPort : Int
  extraProcesses : Nat
  childKillAttempts : Nat
  notifyDoneSignals : List Nat
  deriving DecidableEq

/-- NewAssettoServerProcess, lines 64-80: the freshly constructed
supervisor before any Start; raceEvent, cfn, cmd and udpServerConn are
all nil. -/
def NewAssettoServerProcess : AssettoServerProcess :=
  { raceEvent := none
    cfnSet := false
    cmdSet := false
    spawnCount := 0
    killAttemptsOnCmd := 0
    udpServerConn := none
    connOpen := false
    udpPluginAddress := ""
    udpPluginLocalPort := 0
    forwardingAddress := ""
    forwardListenPort := 0
    extraProcesses := 0
    childKillAttempts := 0
    notifyDoneSignals := [] }

/-- True when an Except collaborator result is a success. -/
def goOk {α : Type} : Except GoError α → Bool
  | Except.ok _ => true
  | Except.error _ => false

/-- Number of successful spawns in a list of per-entry outcomes. -/
def countOk (rs : List (Option GoError)) : Nat :=
  (rs.filter Option.isNone).length

/-- IsRunning, lines 101-106: a session is running exactly when the
raceEvent field is non-nil. -/
def AssettoServerProcess.IsRunning (sp : AssettoServerProcess) : Bool :=
  sp.raceEvent.isSome

/-- startUDPListener, lines 436-458: split the stored plugin address,
parse the port, then open the server client. On open failure Go assigns
the returned nil into the udpServerConn field before returning the
error. -/
def AssettoServerProcess.startUDPListener (sp : AssettoServerProcess)
    (env : StartEnv) : AssettoServerProcess × Option GoError :=
  match env.splitHostPort with
  | none => (sp, some GoError.addrParseError)
  | some _ =>
    match env.parsePort with
    | none => (sp, some GoError.portParseError)
    | some _ =>
      match env.udpOpen with
      | Except.error e =>
        ({ sp with udpServerConn := none, connOpen := false }, some e)
      | Except.ok conn =>
        ({ sp with udpServerConn := some conn, connOpen := true }, none)

/-- The sTracker block of startRaceEvent, lines 232-259: skipped unless
LoadStrackerOptions succeeds, EnableStracker is set and the plugin is
installed; inside, the Go condition on line 233 parses as
(localPort geq 0 and address nonempty) or (address contains a colon).
A configuration write failure or a spawn failure is returned (lines
237-241 and 243-253), aborting startRaceEvent; success appends the
spawned process to the tracked collection. A false addressing
precondition is only logged (line 257). -/
def AssettoServerProcess.strackerPhase (sp : AssettoServerProcess)
    (so : ServerOptions) (env : StartEnv) :
    AssettoServerProcess × Option GoError :=
  match env.loadStrackerOptions with
  | Except.error _ => (sp, none)
  | Except.ok sto =>
    if sto.enableStracker && env.strackerInstalled then
      if (decide (0 ≤ so.udpPluginLocalPort) && (so.udpPluginAddress != ""))
          || so.udpPluginAddress.contains ':' then
        match env.strackerWrite with
        | some e => (sp, some e)
        | none =>
          match env.strackerStart with
          | some e => (sp, some e)
          | none => ({ sp with extraProcesses := sp.extraProcesses + 1 }, none)
      else (sp, none)
    else (sp, none)

/-- The remainder of startRaceEvent after LoadServerOptions succeeds,
lines 222-281: the content manager wrapper is started on its own
goroutine and its failure is only logged (so env.wrapperStart is read by
nothing); then the sTracker block runs and its error, if any, is
returned; then every configured plugin descriptor is started with
failures logged (lines 261-267) and every deprecated run-on-start
command string is started with failures logged (lines 269-279), each
success being appended to the tracked collection. -/
def AssettoServerProcess.auxPhase (sp : AssettoServerProcess)
    (so : ServerOptions) (env : StartEnv) :
    AssettoServerProcess × Option GoError :=
  match sp.strackerPhase so env with
  | (sp1, some e) => (sp1, some e)
  | (sp1, none) =>
    ({ sp1 with extraProcesses := sp1.extraProcesses
        + countOk env.configPlugins + countOk env.runOnStartCmds }, none)

/-- startRaceEvent, lines 180-282, entered with the mutex held: resolve
the executable path (pure string work on configuration, lines 185-191),
create the cancellable context and the command (lines 193-198, making
cfn and cmd non-nil), start the UDP listener (failure returns before
anything else happens), read the working directory, then set the
raceEvent field (line 210) and hand the command to cmd.Run on a new
goroutine (lines 212-214) before loading server options and running the
auxiliary phase. -/
def AssettoServerProcess.startRaceEvent (sp : AssettoServerProcess)
    (raceEvent : Nat) (env : StartEnv) :
    AssettoServerProcess × Option GoError :=
  let sp0 := { sp with cfnSet := true, cmdSet := true }
  match sp0.startUDPListener env with
  | (sp1, some e) => (sp1, some e)
  | (sp1, none) =>
    match env.getwd with
    | Except.error e => (sp1, some e)
    | Except.ok _ =>
      let sp2 := { sp1 with raceEvent := some raceEvent }
      let sp3 := { sp2 with spawnCount := sp2.spawnCount + 1 }
      match env.loadServerOptions with
      | Except.error e => (sp3, some e)
      | Except.ok serverOptions => sp3.auxPhase serverOptions env

/-- True when startRaceEvent reaches line 210 and sets the session
descriptor: the address splits, the port parses, the UDP open succeeds
and the working directory is readable. -/
def launchSetsDescriptor (env : StartEnv) : Bool :=
  env.splitHostPort.isSome && env.parsePort.isSome && goOk env.udpOpen
    && goOk env.getwd

/-- Start, lines 88-99, together with the start-request arm of the
control loop, lines 167-175. Start first overwrites the four addressing
fields under the mutex and only then submits the event to the loop. If a
session is already running the loop calls Stop on itself; the stopped
channel is unbuffered and its only sender is the loop itself (line 164),
which is blocked inside that very Stop call, so the receive on stopped
can never fire: Stop reaches the 10 second soft timeout, force-kills the
main process once (line 123), and returns ErrServerProcessTimeout at the
20 second hard timeout, which the loop hands back to the Start caller
without calling startRaceEvent. Otherwise the loop runs
startRaceEvent. -/
def AssettoServerProcess.Start (sp : AssettoServerProcess) (event : Nat)
    (a : Addressing) (env : StartEnv) :
    AssettoServerProcess × Option GoError :=
  let spA := { sp with
    udpPluginAddress := a.udpPluginAddress
    udpPluginLocalPort := a.udpPluginLocalPort
    forwardingAddress := a.forwardingAddress
    forwardListenPort := a.forwardListenPort }
  if spA.raceEvent.isSome then
    ({ spA with killAttemptsOnCmd := spA.killAttemptsOnCmd + 1 },
      some GoError.errServerProcessTimeout)
  else
    spA.startRaceEvent event env

/-- Modelled from the spec: the Close method of udp.AssettoServerUDP is
not part of src (only the udp package import is visible). Per section
4.2, idempotent-safe close is a documented requirement since teardown
may be invoked when the relay was never successfully opened, and
implementers must null-check rather than fault: Close invoked through an
absent (nil) connection null-checks and returns no error, and through a
present connection returns the result of the close call. The outer
Option would mark a faulting call (none); the spec-modelled Close never
produces it. -/
def udpConnClose (conn : Option Nat) (closeResult : Option GoError) :
    Option (Option GoError) :=
  match conn with
  | none => some none
  | some _ => some closeResult

/-- stopUDPListener, lines 460-462: delegates directly to Close on the
stored connection with no nil check of its own; the safety of closing a
never-opened relay rests entirely on the null check inside the
spec-modelled Close. The result is some r when Close returns r; none
would mark a faulting call, which the spec-modelled Close never makes. -/
def AssettoServerProcess.stopUDPListener (sp : AssettoServerProcess)
    (closeResult : Option GoError) : Option (Option GoError) :=
  udpConnClose sp.udpServerConn closeResult

/-- stopChildProcesses, lines 419-434: stop the content manager wrapper
(an external call with no supervisor state), attempt a kill on every
tracked child process with failures logged, and reset the tracked
collection to empty regardless of individual kill outcomes. -/
def AssettoServerProcess.stopChildProcesses (sp : AssettoServerProcess) :
    AssettoServerProcess :=
  { sp with
    childKillAttempts := sp.childKillAttempts + sp.extraProcesses
    extraProcesses := 0 }

/-- onStop, lines 284-305, run by the control loop when the main process
exit is observed: clear the raceEvent field, then stop the UDP listener;
a close error is returned immediately, skipping both the child process
cleanup and the done-waiter notification; otherwise kill the children,
clear the collection, and attempt one non-blocking send to every
registered done-waiter. A result of none would mark a faulting close
call, which the spec-modelled Close never makes: closing a never-opened
relay returns no error, so teardown then runs to completion. -/
def AssettoServerProcess.onStop (sp : AssettoServerProcess)
    (closeResult : Option GoError) :
    Option (AssettoServerProcess × Option GoError) :=
  let sp1 := { sp with raceEvent := none }
  match sp1.stopUDPListener closeResult with
  | none => none
  | some r =>
    let sp2 := { sp1 with connOpen := false }
    match r with
    | some e => some (sp2, some e)
    | none =>
      let sp3 := sp2.stopChildProcesses
      let sp4 := { sp3 with
        notifyDoneSignals := sp3.notifyDoneSignals.map (fun n => n + 1) }
      some (sp4, none)

/-- SendUDPMessage, lines 320-329: the only precondition check is a nil
test on the stored connection; with a connection present the send is
delegated to it, whether or not that connection has since been closed. -/
def AssettoServerProcess.SendUDPMessage (sp : AssettoServerProcess) :
    Except GoError Nat :=
  match sp.udpServerConn with
  | none => Except.error GoError.errNoOpenUDPConnection
  | some c => Except.ok c

/-- NotifyDone, lines 331-336: append a fresh waiter with zero signal
attempts so far. -/
def AssettoServerProcess.NotifyDone (sp : AssettoServerProcess) :
    AssettoServerProcess :=
  { sp with notifyDoneSignals := sp.notifyDoneSignals ++ [0] }

/-- Observable outcome of a Stop call made while no session is active. -/
inductive IdleStopResult
  | fault
  | hardTimeout (forcedKillAttempted : Bool)
  deriving DecidableEq

/-- Stop, lines 110-133, called when no session is active. The stopped
channel is unbuffered, its only sender is the control loop (line 164)
and the loop only sends after receiving a main-process exit on the run
channel; with no session active there is no pending exit, and the
non-blocking send on line 163-166 never leaves a buffered message, so
the receive on line 117 can never fire. Stop therefore first invokes
sp.cfn (line 113), which faults when no startRaceEvent has ever set it;
otherwise it reaches the 10 second soft timeout and calls kill on
sp.cmd.Process (line 123), which faults when cmd was never set; and
otherwise returns ErrServerProcessTimeout at the 20 second hard
timeout, having attempted the forced kill. -/
def AssettoServerProcess.StopWhenIdle (sp : AssettoServerProcess) :
    IdleStopResult :=
  if sp.cfnSet = false then IdleStopResult.fault
  else if sp.cmdSet = false then IdleStopResult.fault
  else IdleStopResult.hardTimeout true

/-- The error component the sTracker block can contribute to the result of
startRaceEvent: the configuration write error, else the spawn error, when
the block is reached with its addressing precondition true; none
otherwise. -/
def strackerPhaseErr (so : ServerOptions) (env : StartEnv) : Option GoError :=
  match env.loadStrackerOptions with
  | Except.error _ => none
  | Except.ok sto =>
    if sto.enableStracker && env.strackerInstalled then
      if (decide (0 ≤ so.udpPluginLocalPort) && (so.udpPluginAddress != ""))
          || so.udpPluginAddress.contains ':' then
        match env.strackerWrite with
        | some e => some e
        | none => env.strackerStart
      else none
    else none

/-- The requests and events the serialized control loop (lines 155-178)
can process, together with caller-side NotifyDone registration: a Start
request with its parameters and collaborator outcomes, an observed
main-process exit carrying the Close outcome teardown will see, and a
done-waiter registration. -/
inductive SupEvent
  | startReq (event : Nat) (a : Addressing) (env : StartEnv)
  | procExit (closeResult : Option GoError)
  | notifyDoneReq

/-- One serialized step of the supervisor: a Start request runs the Start
path (line 167-175), a process exit runs onStop (line 158-166), and a
NotifyDone registers a waiter. The result is none when the step faults. -/
def stepEvent (sp : AssettoServerProcess) : SupEvent → Option AssettoServerProcess
  | SupEvent.startReq ev a env => some (sp.Start ev a env).1
  | SupEvent.procExit r => (sp.onStop r).map (fun x => x.1)
  | SupEvent.notifyDoneReq => some sp.NotifyDone

/-- Runs a sequence of serialized supervisor steps, stopping at a fault. -/
def execEvents (sp : AssettoServerProcess) : List SupEvent → Option AssettoServerProcess
  | [] => some sp
  | e :: es =>
    match stepEvent sp e with
    | none => none
    | some sp1 => execEvents sp1 es

/-- The specification-side activity tracker folded over the event list:
a teardown always deactivates, a Start request on an idle supervisor
activates exactly when the launch reaches the descriptor assignment, and
a Start request on a running supervisor leaves the old session in
place. -/
def specActive (b : Bool) : SupEvent → Bool
  | SupEvent.startReq _ _ env => b || launchSetsDescriptor env
  | SupEvent.procExit _ => false
  | SupEvent.notifyDoneReq => b

/-- Server options used by the concrete scenarios. -/
def soA : ServerOptions :=
  { enableContentManagerWrapper := 0
    contentManagerWrapperPort := 0
    udpPluginLocalPort := 9001
    udpPluginAddress := "127.0.0.1:9000" }

/-- Addressing used by the concrete scenarios. -/
def addrA : Addressing :=
  { udpPluginAddress := "127.0.0.1:9000"
    udpPluginLocalPort := 9001
    forwardingAddress := ""
    forwardListenPort := 0 }

/-- A second addressing, distinct from addrA in every field that names a
network location. -/
def addrB : Addressing :=
  { udpPluginAddress := "10.0.0.2:8000"
    udpPluginLocalPort := 8001
    forwardingAddress := "10.0.0.3:8100"
    forwardListenPort := 8101 }

/-- Collaborator outcomes for a fully successful launch with the sTracker
integration disabled and no configured plugins. -/
def envGood : StartEnv :=
  { splitHostPort := some ("127.0.0.1", "9000")
    parsePort := some 9000
    udpOpen := Except.ok 1
    getwd := Except.ok "wd"
    loadServerOptions := Except.ok soA
    loadStrackerOptions := Except.ok { enableStracker := false, listeningPort := 0 }
    strackerInstalled := false
    strackerWrite := none
    strackerStart := none
    configPlugins := []
    runOnStartCmds := []
    wrapperStart := none }

/-- Same as envGood except that LoadServerOptions fails, which the code
only checks after the descriptor is set and the process is spawned. -/
def envBadOptions : StartEnv :=
  { envGood with loadServerOptions := Except.error (GoError.optionsLoadError 3) }

/-- Same as envGood except the sTracker integration is enabled, installed,
its addressing precondition holds, and its configuration write fails. -/
def envStrackerW : StartEnv :=
  { envGood with
    loadStrackerOptions := Except.ok { enableStracker := true, listeningPort := 50042 }
    strackerInstalled := true
    strackerWrite := some (GoError.strackerWriteError 5) }

/-- Same as envGood except every best-effort auxiliary spawn fails: the
content manager wrapper, one configured plugin descriptor and one legacy
run-on-start command. -/
def envPluginFails : StartEnv :=
  { envGood with
    configPlugins := [some (GoError.spawnError 9)]
    runOnStartCmds := [some (GoError.spawnError 10)]
    wrapperStart := some (GoError.spawnError 11) }

/-- A supervisor with one active session, an open UDP connection, one
tracked child process and one registered done-waiter. -/
def runningState : AssettoServerProcess :=
  { raceEvent := some 1
    cfnSet := true
    cmdSet := true
    spawnCount := 1
    killAttemptsOnCmd := 0
    udpServerConn := some 1
    connOpen := true
    udpPluginAddress := "127.0.0.1:9000"
    udpPluginLocalPort := 9001
    forwardingAddress := ""
    forwardListenPort := 0
    extraProcesses := 1
    childKillAttempts := 0
    notifyDoneSignals := [0] }

/-- A supervisor after a session has fully torn down: no descriptor, but
cfn and cmd remain set from the previous startRaceEvent. -/
def idleAfterSession : AssettoServerProcess :=
  { NewAssettoServerProcess with
    cfnSet := true
    cmdSet := true
    spawnCount := 1
    udpServerConn := some 1 }

/-- A successful launch followed by the observed exit of the main
process, as one serialized event list. -/
def c7TraceW : List SupEvent :=
  [SupEvent.startReq 1 addrA envGood, SupEvent.procExit none]

/-- The supervisor state after executing c7TraceW from a fresh
supervisor. -/
def c7StateW : AssettoServerProcess :=
  match execEvents NewAssettoServerProcess c7TraceW with
  | some s => s
  | none => NewAssettoServerProcess

/-- The supervisor state after a successful teardown of runningState. -/
def teardownOkState : AssettoServerProcess :=
  { runningState with
    raceEvent := none
    connOpen := false
    extraProcesses := 0
    childKillAttempts := 1
    notifyDoneSignals := [1] }

theorem logBuffer.Write_size (lb : logBuffer) (p : List Nat) :
    (lb.Write p).size = lb.size := rfl

theorem logBuffer.WriteAll_size (ws : List (List Nat)) :
    ∀ lb : logBuffer, (lb.WriteAll ws).size = lb.size := by
  induction ws with
  | nil => intro lb; rfl
  | cons p ps ih =>
    intro lb
    show ((lb.Write p).WriteAll ps).size = lb.size
    rw [ih (lb.Write p), logBuffer.Write_size]

theorem logBuffer.Write_length_le (lb : logBuffer) (p : List Nat) :
    (lb.Write p).buf.length ≤ lb.size + p.length := by
  show ((if lb.size < lb.buf.length then
      lb.buf.drop (lb.buf.length - lb.size) else lb.buf) ++ p).length
      ≤ lb.size + p.length
  rw [List.length_append]
  by_cases h : lb.size < lb.buf.length
  · rw [if_pos h, List.length_drop]
    omega
  · rw [if_neg h]
    omega

theorem logBuffer.Write_suffix (lb : logBuffer) (p acc : List Nat)
    (h : lb.buf <:+ acc) : (lb.Write p).buf <:+ acc ++ p := by
  obtain ⟨t, ht⟩ := h
  show (if lb.size < lb.buf.length then
      lb.buf.drop (lb.buf.length - lb.size) else lb.buf) ++ p <:+ acc ++ p
  by_cases hc : lb.size < lb.buf.length
  · rw [if_pos hc]
    refine ⟨t ++ lb.buf.take (lb.buf.length - lb.size), ?_⟩
    rw [List.append_assoc, ← List.append_assoc (lb.buf.take _),
      List.take_append_drop, ← List.append_assoc, ht]
  · rw [if_neg hc]
    exact ⟨t, by rw [← List.append_assoc, ht]⟩

theorem logBuffer.WriteAll_suffix (ws : List (List Nat)) :
    ∀ (lb : logBuffer) (acc : List Nat), lb.buf <:+ acc →
      (lb.WriteAll ws).buf <:+ acc ++ ws.flatten := by
  induction ws with
  | nil =>
    intro lb acc h
    simpa using h
  | cons p ps ih =>
    intro lb acc h
    have h1 : (lb.Write p).buf <:+ acc ++ p := logBuffer.Write_suffix lb p acc h
    have h2 := ih (lb.Write p) (acc ++ p) h1
    show ((lb.Write p).WriteAll ps).buf <:+ acc ++ (p :: ps).flatten
    rw [List.flatten_cons, ← List.append_assoc]
    exact h2

theorem strackerPhase_raceEvent (sp : AssettoServerProcess)
    (so : ServerOptions) (env : StartEnv) :
    ((sp.strackerPhase so env).1).raceEvent = sp.raceEvent := by
  unfold AssettoServerProcess.strackerPhase
  cases env.loadStrackerOptions with
  | error e => rfl
  | ok sto =>
    dsimp only
    split_ifs with h1 h2
    · cases env.strackerWrite with
      | some e => rfl
      | none =>
        cases env.strackerStart with
        | some e => rfl
        | none => rfl
    · rfl
    · rfl

theorem strackerPhase_spawnCount (sp : AssettoServerProcess)
    (so : ServerOptions) (env : StartEnv) :
    ((sp.strackerPhase so env).1).spawnCount = sp.spawnCount := by
  unfold AssettoServerProcess.strackerPhase
  cases env.loadStrackerOptions with
  | error e => rfl
  | ok sto =>
    dsimp only
    split_ifs with h1 h2
    · cases env.strackerWrite with
      | some e => rfl
      | none =>
        cases env.strackerStart with
        | some e => rfl
        | none => rfl
    · rfl
    · rfl

theorem strackerPhase_err (sp : AssettoServerProcess)
    (so : ServerOptions) (env : StartEnv) :
    (sp.strackerPhase so env).2 = strackerPhaseErr so env := by
  unfold AssettoServerProcess.strackerPhase strackerPhaseErr
  cases env.loadStrackerOptions with
  | error e => rfl
  | ok sto =>
    dsimp only
    split_ifs with h1 h2
    · cases env.strackerWrite with
      | some e => rfl
      | none =>
        cases env.strackerStart with
        | some e => rfl
        | none => rfl
    · rfl
    · rfl

theorem auxPhase_raceEvent (sp : AssettoServerProcess)
    (so : ServerOptions) (env : StartEnv) :
    ((sp.auxPhase so env).1).raceEvent = sp.raceEvent := by
  unfold AssettoServerProcess.auxPhase
  have h := strackerPhase_raceEvent sp so env
  rcases hst : sp.strackerPhase so env with ⟨sp1, e⟩
  rw [hst] at h
  cases e with
  | some a => exact h
  | none => simpa using h

theorem auxPhase_spawnCount (sp : AssettoServerProcess)
    (so : ServerOptions) (env : StartEnv) :
    ((sp.auxPhase so env).1).spawnCount = sp.spawnCount := by
  unfold AssettoServerProcess.auxPhase
  have h := strackerPhase_spawnCount sp so env
  rcases hst : sp.strackerPhase so env with ⟨sp1, e⟩
  rw [hst] at h
  cases e with
  | some a => exact h
  | none => simpa using h

theorem auxPhase_err (sp : AssettoServerProcess)
    (so : ServerOptions) (env : StartEnv) :
    (sp.auxPhase so env).2 = strackerPhaseErr so env := by
  unfold AssettoServerProcess.auxPhase
  have h := strackerPhase_err sp so env
  rcases hst : sp.strackerPhase so env with ⟨sp1, e⟩
  rw [hst] at h
  cases e with
  | some a => exact h
  | none => exact h

theorem startRaceEvent_raceEvent (sp : AssettoServerProcess) (ev : Nat)
    (env : StartEnv) :
    ((sp.startRaceEvent ev env).1).raceEvent =
      if launchSetsDescriptor env = true then some ev else sp.raceEvent := by
  unfold AssettoServerProcess.startRaceEvent AssettoServerProcess.startUDPListener
    launchSetsDescriptor
  cases env.splitHostPort with
  | none => simp
  | some hp =>
    cases env.parsePort with
    | none => simp
    | some p =>
      cases env.udpOpen with
      | error e => simp [goOk]
      | ok c =>
        cases env.getwd with
        | error e => simp [goOk]
        | ok wd =>
          cases env.loadServerOptions with
          | error e => simp [goOk]
          | ok so => simp [goOk, auxPhase_raceEvent]

theorem startRaceEvent_spawnCount (sp : AssettoServerProcess) (ev : Nat)
    (env : StartEnv) :
    ((sp.startRaceEvent ev env).1).spawnCount =
      if launchSetsDescriptor env = true then sp.spawnCount + 1
      else sp.spawnCount := by
  unfold AssettoServerProcess.startRaceEvent AssettoServerProcess.startUDPListener
    launchSetsDescriptor
  cases env.splitHostPort with
  | none => simp
  | some hp =>
    cases env.parsePort with
    | none => simp
    | some p =>
      cases env.udpOpen with
      | error e => simp [goOk]
      | ok c =>
        cases env.getwd with
        | error e => simp [goOk]
        | ok wd =>
          cases env.loadServerOptions with
          | error e => simp [goOk]
          | ok so => simp [goOk, auxPhase_spawnCount]

theorem onStop_clears_raceEvent (sp : AssettoServerProcess)
    (r : Option GoError) (sp1 : AssettoServerProcess) (e : Option GoError)
    (h : sp.onStop r = some (sp1, e)) : sp1.raceEvent = none := by
  unfold AssettoServerProcess.onStop AssettoServerProcess.stopUDPListener
    udpConnClose at h
  cases hc : sp.udpServerConn with
  | none =>
    rw [hc] at h
    simp only [Option.some.injEq, Prod.mk.injEq] at h
    rw [← h.1]
    rfl
  | some c =>
    rw [hc] at h
    cases r with
    | some e1 =>
      simp only [Option.some.injEq, Prod.mk.injEq] at h
      rw [← h.1]
    | none =>
      simp only [Option.some.injEq, Prod.mk.injEq] at h
      rw [← h.1]
      rfl

theorem Start_isRunning (sp : AssettoServerProcess) (ev : Nat)
    (a : Addressing) (env : StartEnv) :
    ((sp.Start ev a env).1).IsRunning
      = (sp.IsRunning || launchSetsDescriptor env) := by
  unfold AssettoServerProcess.Start AssettoServerProcess.IsRunning
  by_cases h : sp.raceEvent.isSome = true
  · simp [h]
  · have h0 : sp.raceEvent = none := by
      cases hre : sp.raceEvent with
      | none => rfl
      | some v => rw [hre] at h; exact absurd rfl h
    simp only [h0, Option.isSome_none, Bool.false_eq_true, if_false,
      Bool.false_or]
    have hre := startRaceEvent_raceEvent
      { sp with
        udpPluginAddress := a.udpPluginAddress
        udpPluginLocalPort := a.udpPluginLocalPort
        forwardingAddress := a.forwardingAddress
        forwardListenPort := a.forwardListenPort } ev env
    simp only [h0] at hre
    rw [hre]
    cases hl : launchSetsDescriptor env <;> simp

theorem execEvents_cons (sp : AssettoServerProcess) (e : SupEvent)
    (es : List SupEvent) :
    execEvents sp (e :: es) =
      match stepEvent sp e with
      | none => none
      | some sp1 => execEvents sp1 es := rfl

theorem execEvents_isRunning (evs : List SupEvent) :
    ∀ sp sp1 : AssettoServerProcess, execEvents sp evs = some sp1 →
      sp1.IsRunning = List.foldl specActive sp.IsRunning evs := by
  induction evs with
  | nil =>
    intro sp sp1 h
    simp only [execEvents, Option.some.injEq] at h
    rw [← h]
    rfl
  | cons e es ih =>
    intro sp sp1 h
    rw [List.foldl_cons]
    cases e with
    | startReq ev a env =>
      have hstep : execEvents sp (SupEvent.startReq ev a env :: es)
          = execEvents (sp.Start ev a env).1 es := rfl
      rw [hstep] at h
      rw [ih _ _ h]
      have : specActive sp.IsRunning (SupEvent.startReq ev a env)
          = ((sp.Start ev a env).1).IsRunning := by
        rw [Start_isRunning]; rfl
      rw [this]
    | procExit r =>
      rw [execEvents_cons] at h
      cases ho : sp.onStop r with
      | none =>
        rw [show stepEvent sp (SupEvent.procExit r)
          = (sp.onStop r).map (fun x => x.1) from rfl, ho] at h
        simp at h
      | some pr =>
        rw [show stepEvent sp (SupEvent.procExit r)
          = (sp.onStop r).map (fun x => x.1) from rfl, ho] at h
        have h2 : execEvents pr.1 es = some sp1 := h
        rw [ih _ _ h2]
        have hre : (pr.1).raceEvent = none :=
          onStop_clears_raceEvent sp r pr.1 pr.2 (by rw [ho])
        have : (pr.1).IsRunning = false := by
          unfold AssettoServerProcess.IsRunning
          rw [hre]; rfl
        rw [this]
        rfl
    | notifyDoneReq =>
      have hstep : execEvents sp (SupEvent.notifyDoneReq :: es)
          = execEvents sp.NotifyDone es := rfl
      rw [hstep] at h
      rw [ih _ _ h]
      rfl

theorem SendUDPMessage_of_conn (sp : AssettoServerProcess) (c : Nat)
    (h : sp.udpServerConn = some c) : sp.SendUDPMessage = Except.ok c := by
  unfold AssettoServerProcess.SendUDPMessage
  rw [h]

/-- C4 counterexample: with cap MaxLogSizeBytes, writing exactly the cap
in one call and one further byte in a second call makes the total
written exceed the cap, yet String returns cap plus one bytes: eviction
only runs once the content already strictly exceeds the cap, and it runs
before the append, so the claim that String returns at most the last cap
bytes is false. -/
theorem logBuffer_cap_plus_one (C : Nat) :
    C < (List.replicate C (0 : Nat) ++ [1]).length ∧
    ¬ ((((newLogBuffer C).Write (List.replicate C 0)).Write [1]).String.length
        ≤ C) := by
  have h1 : (newLogBuffer C).Write (List.replicate C 0)
      = { buf := List.replicate C 0, size := C } := by
    unfold newLogBuffer logBuffer.Write
    simp
  have hc : ¬ (C < (List.replicate C (0 : Nat)).length) := by
    rw [List.length_replicate]
    omega
  constructor
  · rw [List.length_append, List.length_replicate]
    simp only [List.length_cons, List.length_nil]
    omega
  · rw [h1]
    unfold logBuffer.Write logBuffer.String
    dsimp only
    rw [if_neg hc, List.length_append, List.length_replicate]
    simp only [List.length_cons, List.length_nil]
    omega

theorem c4_soft_cap_exceeded_cx :
    MaxLogSizeBytes
      < (List.replicate MaxLogSizeBytes (0 : Nat) ++ [1]).length ∧
    ¬ ((((newLogBuffer MaxLogSizeBytes).Write
        (List.replicate MaxLogSizeBytes 0)).Write [1]).String.length
        ≤ MaxLogSizeBytes) :=
  logBuffer_cap_plus_one MaxLogSizeBytes

/-- C4 amended: after any sequence of writes and a final write p with cap
C, String is byte-for-byte a suffix of the concatenation of everything
ever written, and its length is at most C plus the length of the final
write; the cap is only a soft bound because eviction runs before the
append and only once the content already strictly exceeds the cap. -/
theorem c4_suffix_and_soft_bound (C : Nat) (ws : List (List Nat))
    (p : List Nat) :
    (((newLogBuffer C).WriteAll ws).Write p).String <:+ (ws.flatten ++ p) ∧
    (((newLogBuffer C).WriteAll ws).Write p).String.length ≤ C + p.length := by
  constructor
  · have h0 : (newLogBuffer C).buf <:+ [] := ⟨[], rfl⟩
    have h := logBuffer.WriteAll_suffix ws (newLogBuffer C) [] h0
    rw [List.nil_append] at h
    exact logBuffer.Write_suffix _ p ws.flatten h
  · have h := logBuffer.Write_length_le ((newLogBuffer C).WriteAll ws) p
    rw [logBuffer.WriteAll_size] at h
    exact h

/-- C9: a single Write call never loses any of its own bytes: truncation
happens before the append, so immediately after Write p the contents end
with p, whatever the prior contents were; and writing exactly cap-many
bytes into an empty buffer yields exactly those bytes. -/
theorem c9_single_write_keeps_bytes (lb : logBuffer) (p q : List Nat)
    (h : q.length = lb.size) :
    p <:+ (lb.Write p).buf ∧ ((newLogBuffer lb.size).Write q).buf = q := by
  constructor
  · exact ⟨_, rfl⟩
  · unfold newLogBuffer logBuffer.Write
    simp

/-- C9 witness at cap 2: a write of exactly two bytes into an empty
buffer is kept whole, and a write into a nonempty buffer ends with its
own bytes. -/
theorem c9_single_write_keeps_bytes_witness :
    (([5, 6] : List Nat).length = ((newLogBuffer 2).Write [7]).size) ∧
    ([9] <:+ (((newLogBuffer 2).Write [7]).Write [9]).buf ∧
      ((newLogBuffer ((newLogBuffer 2).Write [7]).size).Write [5, 6]).buf
        = [5, 6]) :=
  ⟨by decide,
    c9_single_write_keeps_bytes ((newLogBuffer 2).Write [7]) [9] [5, 6]
      (by decide)⟩

/-- C1 counterexample: Stop called on a freshly constructed supervisor,
before any Start, faults: line 113 invokes sp.cfn, which no
startRaceEvent has ever assigned, so the call dereferences nil. -/
theorem c1_stop_idle_faults_cx :
    NewAssettoServerProcess.StopWhenIdle = IdleStopResult.fault := rfl

/-- C1 amended: Stop when no session is active is not safe: when no Start
attempt has ever set the cancel function, Stop faults on the nil
invocation; otherwise nothing ever arrives on the stopped channel, so
Stop invokes the forced-kill path at the 10 second soft timeout and
returns ErrServerProcessTimeout at the 20 second hard timeout rather
than returning promptly. -/
theorem c1_stop_idle_behavior (sp : AssettoServerProcess) :
    (sp.cfnSet = false → sp.StopWhenIdle = IdleStopResult.fault) ∧
    (sp.cfnSet = true → sp.cmdSet = true →
      sp.StopWhenIdle = IdleStopResult.hardTimeout true) := by
  constructor
  · intro h
    unfold AssettoServerProcess.StopWhenIdle
    simp [h]
  · intro h1 h2
    unfold AssettoServerProcess.StopWhenIdle
    simp [h1, h2]

/-- C1 witness: the fault case on a fresh supervisor and the
forced-kill-then-hard-timeout case on a supervisor that is idle after a
completed session. -/
theorem c1_stop_idle_behavior_witness :
    (NewAssettoServerProcess.cfnSet = false ∧
      NewAssettoServerProcess.StopWhenIdle = IdleStopResult.fault) ∧
    (idleAfterSession.cfnSet = true ∧ idleAfterSession.cmdSet = true ∧
      idleAfterSession.StopWhenIdle = IdleStopResult.hardTimeout true) :=
  ⟨⟨rfl, (c1_stop_idle_behavior NewAssettoServerProcess).1 rfl⟩,
    ⟨rfl, rfl, (c1_stop_idle_behavior idleAfterSession).2 rfl rfl⟩⟩

/-- C8: closing the UDP relay during teardown is safe even when the
relay was never successfully opened: the close path never faults, and
with no connection present the null check inside the spec-modelled Close
returns no error, so teardown proceeds; with a connection present the
Close result is passed through. -/
theorem c8_close_idempotent_safe (sp : AssettoServerProcess)
    (r : Option GoError) :
    ((sp.stopUDPListener r).isSome = true) ∧
    (sp.udpServerConn = none → sp.stopUDPListener r = some none) := by
  unfold AssettoServerProcess.stopUDPListener udpConnClose
  cases hc : sp.udpServerConn with
  | none => exact ⟨rfl, fun _ => rfl⟩
  | some c =>
    refine ⟨rfl, fun hn => ?_⟩
    exact absurd hn (by simp)

/-- C8 witness: on a supervisor whose relay was never opened (the fresh
supervisor), the close path does not fault and returns no error. -/
theorem c8_close_idempotent_safe_witness :
    NewAssettoServerProcess.udpServerConn = none ∧
    ((NewAssettoServerProcess.stopUDPListener none).isSome = true ∧
      NewAssettoServerProcess.stopUDPListener none = some none) :=
  ⟨rfl,
    (c8_close_idempotent_safe NewAssettoServerProcess none).1,
    (c8_close_idempotent_safe NewAssettoServerProcess none).2 rfl⟩

/-- C10: teardown never resets the connection field to nil, so after
onStop completes the nil precondition check in SendUDPMessage does not
fire; the check detects only a relay that was never opened, and a
post-teardown send is attempted on the stored connection even though
Close has already been invoked on it. -/
theorem c10_post_teardown_send (sp : AssettoServerProcess)
    (r : Option GoError) (c : Nat) (h : sp.udpServerConn = some c) :
    ∀ sp1 e, sp.onStop r = some (sp1, e) →
      sp1.udpServerConn = some c ∧ sp1.connOpen = false ∧
      sp1.SendUDPMessage = Except.ok c := by
  intro sp1 e hs
  unfold AssettoServerProcess.onStop AssettoServerProcess.stopUDPListener
    udpConnClose at hs
  rw [h] at hs
  cases r with
  | some e1 =>
    simp only [Option.some.injEq, Prod.mk.injEq] at hs
    obtain ⟨hs1, hs2⟩ := hs
    subst hs1
    exact ⟨rfl, rfl, SendUDPMessage_of_conn _ c rfl⟩
  | none =>
    simp only [Option.some.injEq, Prod.mk.injEq] at hs
    obtain ⟨hs1, hs2⟩ := hs
    subst hs1
    exact ⟨rfl, rfl, SendUDPMessage_of_conn _ c rfl⟩

/-- C10 witness: after tearing down a running session whose relay close
succeeds, the connection field still holds the old connection, it is
closed, and SendUDPMessage attempts a send on it instead of returning
the no-open-connection error. -/
theorem c10_post_teardown_send_witness :
    runningState.udpServerConn = some 1 ∧
    runningState.onStop none = some (teardownOkState, none) ∧
    (teardownOkState.udpServerConn = some 1 ∧
      teardownOkState.connOpen = false ∧
      teardownOkState.SendUDPMessage = Except.ok 1) :=
  ⟨rfl, rfl,
    c10_post_teardown_send runningState none 1 rfl teardownOkState none rfl⟩

/-- C5 counterexample: when the UDP relay close returns an error during
teardown, onStop returns early (line 291-293): the descriptor is cleared
but the tracked child process is neither killed nor released, the
collection is not cleared, and the registered done-waiter receives no
signal attempt, so teardown does not perform all of its steps. -/
theorem c5_close_error_skips_cleanup_cx :
    runningState.onStop (some (GoError.closeError 7))
      = some ({ runningState with raceEvent := none, connOpen := false },
        some (GoError.closeError 7)) ∧
    ({ runningState with raceEvent := none, connOpen := false }
      : AssettoServerProcess).extraProcesses = 1 ∧
    ({ runningState with raceEvent := none, connOpen := false }
      : AssettoServerProcess).childKillAttempts = 0 ∧
    ({ runningState with raceEvent := none, connOpen := false }
      : AssettoServerProcess).notifyDoneSignals = [0] :=
  ⟨rfl, rfl, rfl, rfl⟩

/-- C5 amended: teardown clears the Session Descriptor first and then
closes the UDP relay; if the close fails, onStop returns that error
without killing or releasing the tracked children, without clearing the
collection and without signaling any done-waiter; if the close succeeds,
it kills every tracked child, clears the collection, and makes exactly
one non-blocking signal attempt per registered done-waiter, so after a
successful Start followed by the observed process exit with a clean
close, IsRunning is false and every waiter got exactly one attempt. -/
theorem c5_teardown_paths (sp : AssettoServerProcess) (r : Option GoError)
    (h : sp.udpServerConn.isSome = true) :
    (r = none → sp.onStop r = some ({ sp with
      raceEvent := none
      connOpen := false
      extraProcesses := 0
      childKillAttempts := sp.childKillAttempts + sp.extraProcesses
      notifyDoneSignals := sp.notifyDoneSignals.map (fun n => n + 1) },
      none)) ∧
    (∀ e, r = some e → sp.onStop r = some ({ sp with
      raceEvent := none
      connOpen := false }, some e)) := by
  cases hc : sp.udpServerConn with
  | none => rw [hc] at h; simp at h
  | some c =>
    constructor
    · intro hr
      subst hr
      unfold AssettoServerProcess.onStop AssettoServerProcess.stopUDPListener
        udpConnClose AssettoServerProcess.stopChildProcesses
      rw [hc]
    · intro e hr
      subst hr
      unfold AssettoServerProcess.onStop AssettoServerProcess.stopUDPListener
        udpConnClose
      rw [hc]

/-- C5 witness: a successful close on a running session performs the full
teardown: descriptor cleared, child killed and collection cleared, one
signal attempt delivered to the registered waiter. -/
theorem c5_teardown_paths_witness :
    runningState.udpServerConn.isSome = true ∧
    runningState.onStop none = some (teardownOkState, none) :=
  ⟨rfl, (c5_teardown_paths runningState none rfl).1 rfl⟩

/-- C6 counterexample: Start on a running supervisor returns the error of
the failed implicit Stop and launches nothing, but the UDP addressing
fields of the prior session have already been overwritten with the new
parameters by lines 89-94, so the prior addressing is not left
unchanged. -/
theorem c6_addressing_overwritten_cx :
    (runningState.Start 2 addrB envGood).2
      = some GoError.errServerProcessTimeout ∧
    ((runningState.Start 2 addrB envGood).1).spawnCount
      = runningState.spawnCount ∧
    ((runningState.Start 2 addrB envGood).1).raceEvent
      = runningState.raceEvent ∧
    ¬ (((runningState.Start 2 addrB envGood).1).udpPluginAddress
      = runningState.udpPluginAddress) := by
  refine ⟨rfl, rfl, rfl, ?_⟩
  decide

/-- C6 amended: when Start is called while a session is running, the
implicit Stop fails (the loop waits on a channel only it can send on, so
it force-kills once and hits the hard timeout), Start returns that
error, the prior session descriptor stays in place and no new process is
launched; however, the four UDP addressing fields have already been
overwritten with the new call parameters before the request reached the
loop. -/
theorem c6_start_while_running (sp : AssettoServerProcess) (ev : Nat)
    (a : Addressing) (env : StartEnv) (h : sp.raceEvent.isSome = true) :
    sp.Start ev a env = ({ sp with
      udpPluginAddress := a.udpPluginAddress
      udpPluginLocalPort := a.udpPluginLocalPort
      forwardingAddress := a.forwardingAddress
      forwardListenPort := a.forwardListenPort
      killAttemptsOnCmd := sp.killAttemptsOnCmd + 1 },
      some GoError.errServerProcessTimeout) := by
  unfold AssettoServerProcess.Start
  dsimp only
  rw [if_pos h]

/-- C6 witness: Start on the running supervisor with fresh addressing
returns the hard timeout error, launches nothing, and shows the
overwritten addressing. -/
theorem c6_start_while_running_witness :
    runningState.raceEvent.isSome = true ∧
    runningState.Start 2 addrB envGood = ({ runningState with
      udpPluginAddress := addrB.udpPluginAddress
      udpPluginLocalPort := addrB.udpPluginLocalPort
      forwardingAddress := addrB.forwardingAddress
      forwardListenPort := addrB.forwardListenPort
      killAttemptsOnCmd := 1 }, some GoError.errServerProcessTimeout) :=
  ⟨rfl, c6_start_while_running runningState 2 addrB envGood rfl⟩

/-- C2 counterexample: with the sTracker integration enabled, installed
and its addressing precondition satisfied, a failure of the sTracker
configuration write (lines 237-241) is returned from startRaceEvent, so
this auxiliary failure does fail Start, contrary to the claim that all
auxiliary launches are best-effort. -/
theorem c2_stracker_write_fails_start_cx :
    (NewAssettoServerProcess.startRaceEvent 1 envStrackerW).2
      = some (GoError.strackerWriteError 5) := rfl

/-- C2 amended: once a launch reaches the auxiliary phase, the only
auxiliary failure that startRaceEvent returns to the Start caller is the
sTracker one (its configuration write, else its spawn); failures of the
content manager wrapper, of configured plugin descriptors and of legacy
run-on-start commands are logged and never affect the returned error. -/
theorem c2_aux_error_is_stracker_only (sp : AssettoServerProcess)
    (ev : Nat) (env : StartEnv) (so : ServerOptions)
    (hso : env.loadServerOptions = Except.ok so)
    (hl : launchSetsDescriptor env = true) :
    (sp.startRaceEvent ev env).2 = strackerPhaseErr so env := by
  unfold AssettoServerProcess.startRaceEvent AssettoServerProcess.startUDPListener
  cases hsp : env.splitHostPort with
  | none => simp [launchSetsDescriptor, hsp] at hl
  | some hp =>
    cases hpp : env.parsePort with
    | none => simp [launchSetsDescriptor, hsp, hpp] at hl
    | some p =>
      cases hu : env.udpOpen with
      | error e => simp [launchSetsDescriptor, hsp, hpp, hu, goOk] at hl
      | ok c =>
        cases hw : env.getwd with
        | error e => simp [launchSetsDescriptor, hsp, hpp, hu, hw, goOk] at hl
        | ok wd =>
          rw [hso]
          exact auxPhase_err _ so env

/-- C2 witness: a launch in which the wrapper, one plugin descriptor and
one legacy command all fail to spawn still returns no error, because the
only propagated auxiliary error is the sTracker one and the sTracker
block contributes none here. -/
theorem c2_aux_error_is_stracker_only_witness :
    envPluginFails.loadServerOptions = Except.ok soA ∧
    launchSetsDescriptor envPluginFails = true ∧
    (NewAssettoServerProcess.startRaceEvent 1 envPluginFails).2
      = strackerPhaseErr soA envPluginFails ∧
    strackerPhaseErr soA envPluginFails = none :=
  ⟨rfl, rfl,
    c2_aux_error_is_stracker_only NewAssettoServerProcess 1 envPluginFails
      soA rfl rfl,
    rfl⟩

/-- C3 counterexample: LoadServerOptions fails only after the descriptor
was set (line 210) and the main process spawned (line 213), so
startRaceEvent returns a non-nil error while IsRunning is already true
and the spawn happened: a partial session is left active. -/
theorem c3_partial_session_cx :
    (NewAssettoServerProcess.startRaceEvent 1 envBadOptions).2
      = some (GoError.optionsLoadError 3) ∧
    ((NewAssettoServerProcess.startRaceEvent 1 envBadOptions).1).IsRunning
      = true ∧
    ((NewAssettoServerProcess.startRaceEvent 1 envBadOptions).1).spawnCount
      = 1 :=
  ⟨rfl, rfl, rfl⟩

/-- C3 amended: when startRaceEvent returns a non-nil error on an idle
supervisor, either the failure occurred before the descriptor assignment
(address split, port parse, UDP open or working directory), in which
case no session is active and the main process was not spawned, or the
launch reached the spawn point, in which case the error is returned with
the descriptor still set and the process already spawned. -/
theorem c3_error_leaves_spawned_or_clean (sp : AssettoServerProcess)
    (ev : Nat) (env : StartEnv) (h0 : sp.raceEvent = none)
    (h : ((sp.startRaceEvent ev env).2).isSome = true) :
    (launchSetsDescriptor env = false ∧
      ((sp.startRaceEvent ev env).1).raceEvent = none ∧
      ((sp.startRaceEvent ev env).1).spawnCount = sp.spawnCount) ∨
    (launchSetsDescriptor env = true ∧
      ((sp.startRaceEvent ev env).1).raceEvent = some ev ∧
      ((sp.startRaceEvent ev env).1).spawnCount = sp.spawnCount + 1) := by
  cases hl : launchSetsDescriptor env with
  | false =>
    left
    refine ⟨rfl, ?_, ?_⟩
    · rw [startRaceEvent_raceEvent, hl]
      simp [h0]
    · rw [startRaceEvent_spawnCount, hl]
      simp
  | true =>
    right
    refine ⟨rfl, ?_, ?_⟩
    · rw [startRaceEvent_raceEvent, hl]
      simp
    · rw [startRaceEvent_spawnCount, hl]
      simp

/-- C3 witness: on the failing-options launch the second disjunct holds:
an error is returned while the descriptor is set and the process
spawned. -/
theorem c3_error_leaves_spawned_or_clean_witness :
    NewAssettoServerProcess.raceEvent = none ∧
    ((NewAssettoServerProcess.startRaceEvent 1 envBadOptions).2).isSome
      = true ∧
    ((launchSetsDescriptor envBadOptions = false ∧
      ((NewAssettoServerProcess.startRaceEvent 1 envBadOptions).1).raceEvent
        = none ∧
      ((NewAssettoServerProcess.startRaceEvent 1 envBadOptions).1).spawnCount
        = NewAssettoServerProcess.spawnCount) ∨
    (launchSetsDescriptor envBadOptions = true ∧
      ((NewAssettoServerProcess.startRaceEvent 1 envBadOptions).1).raceEvent
        = some 1 ∧
      ((NewAssettoServerProcess.startRaceEvent 1 envBadOptions).1).spawnCount
        = NewAssettoServerProcess.spawnCount + 1)) :=
  ⟨rfl, rfl,
    c3_error_leaves_spawned_or_clean NewAssettoServerProcess 1 envBadOptions
      rfl rfl⟩

/-- C7 counterexample: a single Start that fails with the options load
error still leaves IsRunning true, so IsRunning being true does not
imply that the most recent Start call succeeded. -/
theorem c7_failed_start_leaves_running_cx :
    (NewAssettoServerProcess.Start 1 addrA envBadOptions).2
      = some (GoError.optionsLoadError 3) ∧
    ((NewAssettoServerProcess.Start 1 addrA envBadOptions).1).IsRunning
      = true :=
  ⟨rfl, rfl⟩

/-- C7 amended: over every fault-free serialized execution from a fresh
supervisor, IsRunning is true iff the most recent Start request reached
the descriptor assignment (UDP listener and working directory succeeded)
and no teardown has run since; a Start that fails after the spawn point
leaves the session active, and a Start rejected because a session was
already running leaves the prior session active. -/
theorem c7_isRunning_trace_characterization (evs : List SupEvent)
    (sp1 : AssettoServerProcess)
    (h : execEvents NewAssettoServerProcess evs = some sp1) :
    sp1.IsRunning = List.foldl specActive false evs := by
  have h2 := execEvents_isRunning evs NewAssettoServerProcess sp1 h
  rw [h2]
  rfl

/-- C7 witness: a successful launch followed by the observed process
exit yields a final state whose IsRunning matches the specification-side
fold (false, since the teardown was the last event). -/
theorem c7_isRunning_trace_characterization_witness :
    execEvents NewAssettoServerProcess c7TraceW = some c7StateW ∧
    c7StateW.IsRunning = List.foldl specActive false c7TraceW :=
  ⟨rfl, c7_isRunning_trace_characterization c7TraceW c7StateW rfl⟩
